import Mathlib

/-!
Verification of the AI Tennis Lab content pipeline
(`email_assistant.py` / `generate.py`) against its specification.

Strings are modelled as `List Char` (`"...".data` for literals); Python
`str.lower` is `List.map Char.toLower`, Python whitespace `split()` is
`pySplit`, Python substring containment (`in`) is `isSubstr`.
-/

namespace TennisLab

/-- Python `str.lower()` on a character list (ASCII case folding). -/
def lowerL (s : List Char) : List Char := s.map Char.toLower

/-- Python substring test `needle in hay`. -/
def isSubstr (needle : List Char) : List Char → Bool
  | [] => needle.isEmpty
  | c :: rest => needle.isPrefixOf (c :: rest) || isSubstr needle rest

/-- Helper for `pySplit`: accumulates the current (reversed) word. -/
def pySplitGo (cur : List Char) : List Char → List (List Char)
  | [] => if cur.isEmpty then [] else [cur.reverse]
  | c :: rest =>
    if c.isWhitespace then
      if cur.isEmpty then pySplitGo [] rest
      else cur.reverse :: pySplitGo [] rest
    else pySplitGo (c :: cur) rest

/-- Python `str.split()`: split on whitespace runs, no empty tokens. -/
def pySplit (s : List Char) : List (List Char) := pySplitGo [] s

/-- Python `str.strip()`: drop leading and trailing whitespace. -/
def pyStrip (s : List Char) : List Char :=
  ((s.dropWhile Char.isWhitespace).reverse.dropWhile Char.isWhitespace).reverse

/-- Python `str.rstrip(".!")` as used on captured search terms. -/
def rstripDotBang (s : List Char) : List Char :=
  (s.reverse.dropWhile (fun c => c == '.' || c == '!')).reverse

/-- A topic record from `topics.json` (slug, title, category, difficulty,
keywords), per `load_config` in `generate.py`. -/
structure Topic where
  slug : List Char
  title : List Char
  category : List Char
  difficulty : List Char
  keywords : List (List Char)
deriving DecidableEq, Repr

/-- Site settings from `topics.json` (the part the handlers read). -/
structure Site where
  base_url : List Char
deriving DecidableEq, Repr

/-- The combined text surface `all_text` built in `find_topic`
(`email_assistant.py` lines 199-202): lowered title, slug with `-`
replaced by spaces, and the lowered keywords joined by spaces. -/
def topicSurface (t : Topic) : List Char :=
  lowerL t.title ++ [' '] ++
    t.slug.map (fun c => if c == '-' then ' ' else c) ++ [' '] ++
    List.intercalate [' '] (t.keywords.map lowerL)

/-- The per-search-word score in `find_topic` (lines 205-213): words
shorter than 3 are skipped; +2 for a substring hit on the surface;
else +1 if the word and some surface word contain one another. -/
def wordScore (allText : List Char) (w : List Char) : Nat :=
  if w.length < 3 then 0
  else if isSubstr w allText then 2
  else if (pySplit allText).any (fun aw => isSubstr w aw || isSubstr aw w) then 1
  else 0

/-- Tokenisation of the search term in `find_topic` (line 193), a set:
the distinct lower-cased whitespace tokens. -/
def searchTokens (term : List Char) : List (List Char) :=
  (pySplit (lowerL term)).dedup

/-- Total score of one topic against the search tokens (the `for word in
search_words` accumulation in `find_topic`). -/
def scoreTopic (words : List (List Char)) (t : Topic) : Nat :=
  (words.map (wordScore (topicSurface t))).sum

/-- The `for topic in topics` fold of `find_topic` (lines 195-217),
carrying `best_match` and `best_score`; the update fires on a strictly
greater score (`if score > best_score`). -/
def findTopicGo (score : Topic → Nat) :
    List Topic → Option Topic → Nat → Option Topic × Nat
  | [], best, bestScore => (best, bestScore)
  | t :: ts, best, bestScore =>
    if bestScore < score t then findTopicGo score ts (some t) (score t)
    else findTopicGo score ts best bestScore

/-- Model of `find_topic` (`email_assistant.py` 190-219): the best match
when the best score is positive, else none. -/
def find_topic (term : List Char) (topics : List Topic) : Option Topic :=
  let score := fun t => scoreTopic (searchTokens term) t
  let r := findTopicGo score topics none 0
  if 0 < r.2 then r.1 else none

/-- Resolver as the specification words it (spec §4.2 / claim C2): the
first catalog topic attaining the strictly highest total score, and
`NotFound` (`none`) exactly when that highest score is 0. -/
def resolveSpec (term : List Char) (topics : List Topic) : Option Topic :=
  let score := fun t => scoreTopic (searchTokens term) t
  let best := (topics.map score).foldr max 0
  if best = 0 then none else topics.find? (fun t => score t == best)

/-! ### Resolver fold characterisation -/

theorem findTopicGo_eq (score : Topic → Nat) :
    ∀ (ts : List Topic) (best : Option Topic) (b : Nat),
    findTopicGo score ts best b =
      (if (ts.map score).foldr max 0 ≤ b then best
       else ts.find? (fun t => score t == (ts.map score).foldr max 0),
       max b ((ts.map score).foldr max 0)) := by
  intro ts
  induction ts with
  | nil =>
    intro best b
    simp [findTopicGo]
  | cons t ts ih =>
    intro best b
    by_cases hb : b < score t
    · rw [findTopicGo, if_pos hb, ih]
      by_cases hm : (ts.map score).foldr max 0 ≤ score t
      · have hMax : max (score t) ((ts.map score).foldr max 0) = score t := by omega
        simp only [List.map_cons, List.foldr_cons, hMax]
        rw [if_pos hm]
        have hgt : ¬ score t ≤ b := by omega
        rw [if_neg hgt]
        have : max b (score t) = score t := by omega
        rw [this]
        simp [List.find?]
      · push_neg at hm
        have hMax : max (score t) ((ts.map score).foldr max 0) =
            (ts.map score).foldr max 0 := by omega
        simp only [List.map_cons, List.foldr_cons, hMax]
        have hgt : ¬ (ts.map score).foldr max 0 ≤ b := by omega
        rw [if_neg hgt, if_neg (by omega : ¬ (ts.map score).foldr max 0 ≤ score t)]
        have hne : (score t == (ts.map score).foldr max 0) = false := by
          simp only [beq_eq_false_iff_ne, ne_eq]
          omega
        rw [List.find?, hne]
        refine Prod.ext ?_ ?_
        · simp
        · simp only []
          omega
    · push_neg at hb
      rw [findTopicGo, if_neg (by omega : ¬ b < score t), ih]
      by_cases hm : (ts.map score).foldr max 0 ≤ b
      · have hM : max (score t) ((ts.map score).foldr max 0) ≤ b := by omega
        simp only [List.map_cons, List.foldr_cons]
        rw [if_pos hm, if_pos hM]
        congr 1
        omega
      · push_neg at hm
        have hMax : max (score t) ((ts.map score).foldr max 0) =
            (ts.map score).foldr max 0 := by omega
        simp only [List.map_cons, List.foldr_cons, hMax]
        rw [if_neg (by omega : ¬ (ts.map score).foldr max 0 ≤ b),
            if_neg (by omega : ¬ (ts.map score).foldr max 0 ≤ b)]
        have hne : (score t == (ts.map score).foldr max 0) = false := by
          simp only [beq_eq_false_iff_ne, ne_eq]
          omega
        rw [List.find?, hne]

/-- C2: `find_topic` returns the first catalog topic (in catalog order)
attaining the strictly highest total score, and `none` exactly when the
highest score is 0 — i.e. it agrees with the spec-worded resolver. -/
theorem find_topic_eq_resolveSpec (term : List Char) (topics : List Topic) :
    find_topic term topics = resolveSpec term topics := by
  simp only [find_topic, resolveSpec, findTopicGo_eq]
  by_cases h : (topics.map fun t => scoreTopic (searchTokens term) t).foldr max 0 = 0
  · simp [h]
  · have hpos : 0 < (topics.map fun t => scoreTopic (searchTokens term) t).foldr max 0 :=
      Nat.pos_of_ne_zero h
    simp [h, hpos, Nat.not_le.mpr hpos]

/-! ### Command parser (`parse_command`, `email_assistant.py` 141-185) -/

/-- A parsed command (spec §3 `Command`). -/
inductive Command where
  | topicList
  | status
  | newArticle (term : List Char)
  | rework (term : List Char)
  | question (text : List Char)
deriving DecidableEq, Repr

/-- Model of `parse_command`: lowers subject, a space and body, then
applies the fixed precedence order: topic-list synonyms, short status,
new-article patterns, rework patterns, question fallback.  The two
regex-driven stages (`new_patterns`, `rework_patterns`) are abstracted
as parameters `newMatch`/`reworkMatch` returning the captured group (if
any); the claims settled here quantify over all their behaviours. -/
def parse_command (newMatch reworkMatch : List Char → Option (List Char))
    (subject body : List Char) : Command :=
  let text := lowerL (subject ++ [' '] ++ body)
  if isSubstr "themenliste".data text || isSubstr "topics".data text ||
      isSubstr "themen".data text then
    .topicList
  else if isSubstr "status".data text && decide ((pySplit text).length < 10) then
    .status
  else
    match newMatch text with
    | some arg => .newArticle (rstripDotBang (pyStrip arg))
    | none =>
      match reworkMatch text with
      | some arg => .rework (rstripDotBang (pyStrip arg))
      | none => .question (subject ++ (if body.isEmpty then [] else '\n' :: body))

/-- C8: any input whose lower-cased `subject + " " + body` contains a
topic-list synonym parses to `ListTopics`, whatever the other stages
would match — the topic-list rule is evaluated first. -/
theorem parse_command_topicList (newMatch reworkMatch : List Char → Option (List Char))
    (subject body : List Char)
    (h : isSubstr "themenliste".data (lowerL (subject ++ [' '] ++ body)) = true ∨
         isSubstr "topics".data (lowerL (subject ++ [' '] ++ body)) = true ∨
         isSubstr "themen".data (lowerL (subject ++ [' '] ++ body)) = true) :
    parse_command newMatch reworkMatch subject body = Command.topicList := by
  simp only [parse_command]
  rcases h with h | h | h <;> (simp at h; simp [h])

/-- Witness for C8 at a concrete input: "Bitte die THEMEN zeigen". -/
theorem parse_command_topicList_witness :
    parse_command (fun _ => none) (fun _ => none)
      "Bitte die THEMEN zeigen".data [] = Command.topicList :=
  parse_command_topicList _ _ _ _ (by decide)

/-! ### Quality check (`check_quality`, `generate.py` 320-358) -/

/-- Value of a non-empty all-ASCII-digit string (the forms Python
`int()` accepts after the call sites' own `strip()`). -/
def pyDigits (s : List Char) : Option Nat :=
  if !s.isEmpty && s.all Char.isDigit then
    some (s.foldl (fun a c => 10 * a + (c.toNat - '0'.toNat)) 0)
  else none

/-- Python `int(s)` on an already-stripped string: optional sign, then
decimal digits; anything else raises `ValueError` (`none`). -/
def pyInt : List Char → Option Int
  | '-' :: rest => (pyDigits rest).map (fun n => -(n : Int))
  | '+' :: rest => (pyDigits rest).map (fun n => (n : Int))
  | s => (pyDigits s).map (fun n => (n : Int))

/-- Python `line.split(":", 1)[1]`: everything after the first colon. -/
def afterFirstColon : List Char → List Char
  | [] => []
  | c :: rest => if c == ':' then rest else afterFirstColon rest

/-- Score extraction from a GESAMT line in `check_quality`: second
colon-separated field, stripped, cut at a slash, stripped, parsed;
`none` when the parse would raise (the except branch then keeps the
previous score). -/
def parseGesamt (line : List Char) : Option Int :=
  match (line.splitOn ':').get? 1 with
  | none => none
  | some f => pyInt (pyStrip (((pyStrip f).splitOn '/').headD []))

/-- One line of the `for line in raw.strip().split("\n")` scan in
`check_quality`: a parseable `GESAMT:` line overwrites the score
(accumulator first component), a `FEEDBACK:` line overwrites the
feedback (second component). -/
def qualityStep (acc : Int × List Char) (line : List Char) : Int × List Char :=
  let acc1 :=
    if "GESAMT:".data.isPrefixOf line then
      match parseGesamt line with
      | some n => (n, acc.2)
      | none => acc
    else acc
  if "FEEDBACK:".data.isPrefixOf line then (acc1.1, pyStrip (afterFirstColon line))
  else acc1

/-- Model of the `check_quality` response parsing (`generate.py`
344-358): start from
the default score 7 and empty feedback, scan the lines with
`qualityStep`; `passed = score >= 7`.  The Claude call that produced
`raw` is the caller's oracle. -/
def check_quality (raw : List Char) : Bool × Int × List Char :=
  let sf := ((pyStrip raw).splitOn '\n').foldl qualityStep ((7 : Int), ([] : List Char))
  (decide (7 ≤ sf.1), sf.1, sf.2)

/-! ### Quality-gated draft loop -/

/-- The part of `generate_article`'s result the claims inspect (its
`content_html`; metadata plays no role in any claim). -/
structure ArticleData where
  content : List Char
deriving DecidableEq, Repr

/-- External capabilities of the pipeline, as oracles: research notes,
draft generation (`generate_article`), the raw quality-check response
(the Claude call inside `check_quality`), the Gemini credential flag
and the image API (`ok none` = empty response, `error` = raised). -/
structure Env where
  research : Topic → List Char
  draft : Topic → List Char → List Char → ArticleData
  qualityRaw : Topic → List Char → List Char
  geminiKey : Bool
  imageAPI : Topic → Except (List Char) (Option (List Char))

/-- Outcome of the quality-gated draft loop: last draft, its score, and
the number of attempts performed. -/
structure LoopResult where
  data : ArticleData
  score : Int
  attempts : Nat
deriving DecidableEq, Repr

/-- The `for attempt in range(k)` quality loop shared by
`handle_new_article` (247-257), `handle_rework` (307-317),
`auto_generate_next` (525-535) and `generate.py main` (459-469):
draft with current feedback, check quality, stop on pass, else retry
with the critique.  `retries` is `k - 1` (the loop always performs its
first attempt); `done` counts attempts already performed. -/
def draftLoopGo (env : Env) (topic : Topic) (notes : List Char) :
    Nat → List Char → Nat → LoopResult
  | retries, fb, done =>
    let data := env.draft topic notes fb
    let q := check_quality (env.qualityRaw topic data.content)
    match retries with
    | 0 => ⟨data, q.2.1, done + 1⟩
    | r + 1 =>
      if q.1 then ⟨data, q.2.1, done + 1⟩
      else draftLoopGo env topic notes r q.2.2 (done + 1)

/-- The quality loop from its start: `retries = 1` for the three
`range(2)` loops in `email_assistant.py`, `retries = 2` for the
`range(3)` loop in `generate.py main`. -/
def qualityLoop (env : Env) (topic : Topic) (notes fb0 : List Char)
    (retries : Nat) : LoopResult :=
  draftLoopGo env topic notes retries fb0 0

theorem draftLoopGo_attempts_le (env : Env) (topic : Topic) (notes : List Char) :
    ∀ (retries : Nat) (fb : List Char) (done : Nat),
    (draftLoopGo env topic notes retries fb done).attempts ≤ done + retries + 1 := by
  intro retries
  induction retries with
  | zero => intro fb done; simp [draftLoopGo]
  | succ r ih =>
    intro fb done
    rw [draftLoopGo]
    split
    · simp
    · calc (draftLoopGo env topic notes r _ (done + 1)).attempts
          ≤ done + 1 + r + 1 := ih _ _
        _ ≤ done + (r + 1) + 1 := by omega

/-- A concrete topic used for scripted runs. -/
def topic0 : Topic :=
  ⟨"vorhand-topspin".data, "Vorhand Topspin".data, "Grundschlaege".data,
   "Fortgeschritten".data, ["vorhand".data, "topspin".data]⟩

/-- Scripted environment whose quality checker scores the first draft 5
and the reworked draft 8. -/
def env58 : Env where
  research := fun _ => []
  draft := fun _ _ fb => if fb.isEmpty then ⟨"A".data⟩ else ⟨"B".data⟩
  qualityRaw := fun _ c =>
    if c == "A".data then "GESAMT: 5\nFEEDBACK: Mehr Detail".data
    else "GESAMT: 8".data
  geminiKey := false
  imageAPI := fun _ => .ok none

/-- Scripted environment whose quality checker always scores 5. -/
def envAll5 : Env :=
  { env58 with qualityRaw := fun _ _ => "GESAMT: 5\nFEEDBACK: Mehr Detail".data }

/-- Scripted environment whose quality checker always scores 8. -/
def env8 : Env :=
  { env58 with qualityRaw := fun _ _ => "GESAMT: 8".data }

/-- C1 counterexample: the quality loop of `generate.py main` is
`for attempt in range(3)` (`retries = 2`), so with a scripted checker
that always scores 5 that run of the draft loop performs 3 attempts —
refuting "every run performs at most 2 draft attempts". -/
theorem quality_loop_three_attempts :
    (qualityLoop envAll5 topic0 [] [] 2).attempts = 3 ∧
    ¬ ((qualityLoop envAll5 topic0 [] [] 2).attempts ≤ 2) := by
  constructor
  · decide
  · decide

/-- C1 amended: the `range(2)` loops of `email_assistant.py` perform at
most 2 attempts, a loop with `k` retries at most `k + 1` (so the
`range(3)` loop of `generate.py main` at most 3); every loop exits
immediately after an attempt whose score passes the gate; and with the
scripted scores [5, 8] both loop widths perform exactly 2 attempts and
return score 8. -/
theorem quality_loop_bounds :
    (∀ (env : Env) (t : Topic) (n fb : List Char),
        (qualityLoop env t n fb 1).attempts ≤ 2) ∧
    (∀ (env : Env) (t : Topic) (n fb : List Char) (r : Nat),
        (qualityLoop env t n fb r).attempts ≤ r + 1) ∧
    (∀ (env : Env) (t : Topic) (n fb : List Char) (r done : Nat),
        (check_quality (env.qualityRaw t (env.draft t n fb).content)).1 = true →
        draftLoopGo env t n r fb done =
          ⟨env.draft t n fb,
           (check_quality (env.qualityRaw t (env.draft t n fb).content)).2.1,
           done + 1⟩) ∧
    (qualityLoop env58 topic0 [] [] 1 = ⟨⟨"B".data⟩, 8, 2⟩ ∧
     qualityLoop env58 topic0 [] [] 2 = ⟨⟨"B".data⟩, 8, 2⟩) := by
  refine ⟨fun env t n fb => ?_, fun env t n fb r => ?_, fun env t n fb r done h => ?_,
          by decide, by decide⟩
  · have := draftLoopGo_attempts_le env t n 1 fb 0
    simpa [qualityLoop] using this
  · have := draftLoopGo_attempts_le env t n r fb 0
    simpa [qualityLoop] using this
  · cases r with
    | zero => rw [draftLoopGo]
    | succ r => rw [draftLoopGo]; simp [h]

/-- Witness for the early-exit part of `quality_loop_bounds` at a
concrete passing environment. -/
theorem quality_loop_bounds_witness :
    draftLoopGo env8 topic0 [] 1 [] 0 =
      ⟨env8.draft topic0 [] [],
       (check_quality (env8.qualityRaw topic0 (env8.draft topic0 [] []).content)).2.1,
       1⟩ :=
  quality_loop_bounds.2.2.1 env8 topic0 [] [] 1 0 (by decide)

/-! ### C9: malformed checker output defaults to a passing score -/

theorem qualityStep_fst (acc : Int × List Char) (line : List Char)
    (h : "GESAMT:".data.isPrefixOf line = true → parseGesamt line = none) :
    (qualityStep acc line).1 = acc.1 := by
  by_cases hg : "GESAMT:".data.isPrefixOf line
  · simp only [qualityStep, hg, if_true, h hg]
    split <;> rfl
  · simp only [qualityStep, hg, if_false, Bool.false_eq_true]
    split <;> rfl

theorem foldl_qualityStep_fst :
    ∀ (lines : List (List Char)),
    (∀ line ∈ lines, "GESAMT:".data.isPrefixOf line = true → parseGesamt line = none) →
    ∀ acc : Int × List Char, (lines.foldl qualityStep acc).1 = acc.1 := by
  intro lines
  induction lines with
  | nil => intro _ acc; rfl
  | cons l ls ih =>
    intro h acc
    rw [List.foldl_cons, ih (fun x hx => h x (List.mem_cons_of_mem _ hx)),
        qualityStep_fst _ _ (h l (List.mem_cons_self _ _))]

/-- C9: when no `GESAMT:` line of the checker response carries a
parseable integer, `check_quality` keeps the default score 7 and
passes, and a draft loop fed such a response exits after its first
attempt. -/
theorem check_quality_malformed_default (raw : List Char)
    (h : ∀ line ∈ (pyStrip raw).splitOn '\n',
        "GESAMT:".data.isPrefixOf line = true → parseGesamt line = none) :
    check_quality raw = (true, 7, (check_quality raw).2.2) ∧
    (∀ (env : Env) (t : Topic) (n fb : List Char) (r : Nat),
        (∀ c, env.qualityRaw t c = raw) →
        (qualityLoop env t n fb r).attempts = 1) := by
  have hfst : (((pyStrip raw).splitOn '\n').foldl qualityStep ((7 : Int), ([] : List Char))).1 = 7 :=
    foldl_qualityStep_fst _ h _
  have hq : check_quality raw = (true, 7, (check_quality raw).2.2) := by
    simp only [check_quality, hfst]
    rfl
  refine ⟨hq, fun env t n fb r hraw => ?_⟩
  have hpass : (check_quality (env.qualityRaw t (env.draft t n fb).content)).1 = true := by
    rw [hraw, hq]
  cases r with
  | zero => rw [qualityLoop, draftLoopGo]
  | succ r => rw [qualityLoop, draftLoopGo]; simp [hpass]

/-- Scripted environment whose checker output has no `GESAMT:` line. -/
def envMalformed : Env :=
  { env58 with qualityRaw := fun _ _ => "Alles bestens".data }

/-- Witness for `check_quality_malformed_default` on the concrete
response "Alles bestens". -/
theorem check_quality_malformed_default_witness :
    check_quality "Alles bestens".data =
      (true, 7, (check_quality "Alles bestens".data).2.2) ∧
    (qualityLoop envMalformed topic0 [] [] 1).attempts = 1 :=
  ⟨(check_quality_malformed_default "Alles bestens".data (by decide)).1,
   (check_quality_malformed_default "Alles bestens".data (by decide)).2
     envMalformed topic0 [] [] 1 (fun _ => rfl)⟩

/-! ### Output tree and pipeline side effects -/

/-- A rendered artifact (the `article` dict of `render_article`,
`generate.py` 297-310); fields no claim inspects (dates, meta
description, how-to steps, related list) are omitted. -/
structure Article where
  slug : List Char
  title : List Char
  content : List Char
  image : Option (List Char)
deriving DecidableEq, Repr

/-- The output tree: `docs/artikel/<slug>.html` files keyed by slug and
`docs/images/<slug>.jpg` file names.  `build_site` and `git_push` touch
neither set of files (index/sitemap/robots live outside both). -/
structure FS where
  artikel : List (List Char × Article)
  images : List (List Char)
deriving DecidableEq, Repr

/-- A fresh output tree. -/
def FS.emptyTree : FS := ⟨[], []⟩

/-- Existence test for the artifact file of a slug. -/
def FS.hasArtikel (fs : FS) (slug : List Char) : Bool :=
  fs.artikel.any (fun p => p.1 == slug)

/-- The artifact stored for a slug, if any. -/
def FS.getArtikel (fs : FS) (slug : List Char) : Option Article :=
  (fs.artikel.find? (fun p => p.1 == slug)).map Prod.snd

/-- Stems of the artifact files in the output directory, as a list. -/
def publishedSlugs (fs : FS) : List (List Char) := fs.artikel.map Prod.fst

/-- Model of `generate_image` (`generate.py` 77-119): missing Gemini key,
an empty response, or any raised exception yield `None`; on success the
file `<slug>.jpg` is written and its name returned. -/
def generate_image (env : Env) (topic : Topic) (fs : FS) :
    Option (List Char) × FS :=
  if !env.geminiKey then (none, fs)
  else
    match env.imageAPI topic with
    | .error _ => (none, fs)
    | .ok none => (none, fs)
    | .ok (some _) =>
      let name := topic.slug ++ ".jpg".data
      (some name, { fs with images := name :: fs.images.filter (fun i => !(i == name)) })

/-- Model of `render_article` (`generate.py` 290-317): build the record
(its `image` field is exactly the `image_file` argument) and overwrite
`docs/artikel/<slug>.html`. -/
def render_article (topic : Topic) (data : ArticleData)
    (imageFile : Option (List Char)) (_site : Site) (_topics : List Topic)
    (fs : FS) : FS :=
  { fs with artikel :=
      (topic.slug, ⟨topic.slug, topic.title, data.content, imageFile⟩) ::
        fs.artikel.filter (fun p => !(p.1 == topic.slug)) }

/-! ### Command handlers (`email_assistant.py` 224-400) -/

/-- URL of an article page: base url, the artikel directory, slug. -/
def urlFor (site : Site) (t : Topic) : List Char :=
  site.base_url ++ "/artikel/".data ++ t.slug ++ ".html".data

/-- The already-published reply of `handle_new_article` (234-238). -/
def existsReplyText (site : Site) (t : Topic) : List Char :=
  "Artikel existiert bereits: ".data ++ t.title ++ "\nURL: ".data ++
    urlFor site t ++ "\n\nSende \x27ueberarbeite ".data ++ t.title ++
    "\x27 um ihn zu ueberarbeiten.".data

/-- The not-yet-published reply of `handle_rework` (292-295). -/
def notYetReplyText (t : Topic) (term : List Char) : List Char :=
  "Artikel \x27".data ++ t.title ++ "\x27 existiert noch nicht.\nSende \x27neuer artikel ueber ".data ++
    term ++ "\x27 um ihn zu erstellen.".data

/-- Result of a handler: the reply text, the resulting output tree, and
`some fb0` exactly when the generation pipeline was invoked (with
`fb0` the feedback seeding its first draft). -/
structure HandlerResult where
  reply : List Char
  fs : FS
  pipelineSeed : Option (List Char)
deriving DecidableEq, Repr

/-- Model of `handle_new_article` (`email_assistant.py` 224-281):
resolve; list
topics when unresolved; report the existing location when already
published; otherwise research, run the `range(2)` quality loop with
empty initial feedback, generate the image, render, rebuild, push. -/
def handle_new_article (env : Env) (term : List Char) (site : Site)
    (topics : List Topic) (fs : FS) : HandlerResult :=
  match find_topic term topics with
  | none =>
    ⟨"Kein passendes Thema gefunden fuer: \x27".data ++ term ++
       "\x27\n\nVerfuegbare Themen:\n".data ++
       List.intercalate "\n".data (topics.map (fun t => "  - ".data ++ t.title)),
     fs, none⟩
  | some topic =>
    if fs.hasArtikel topic.slug then ⟨existsReplyText site topic, fs, none⟩
    else
      let notes := env.research topic
      let res := qualityLoop env topic notes [] 1
      let img := generate_image env topic fs
      let fs2 := render_article topic res.data img.1 site topics img.2
      ⟨"Neuer Artikel erstellt!\n\nTitel: ".data ++ topic.title ++
         "\nQualitaet: ".data ++ res.score.repr.data ++ "/10\nBild: ".data ++
         (if img.1.isSome then "Ja".data else "Nein".data) ++
         "\nURL: ".data ++ urlFor site topic ++
         "\n\nDer Artikel ist live nach dem GitHub Pages Deploy (ca. 1-2 Minuten).".data,
       fs2, some []⟩

/-- Model of `handle_rework` (`email_assistant.py` 284-337): refuse when
never published; otherwise seed the quality loop with the email body
(or the default prompt when the body is empty), regenerate and
re-render in place. -/
def handle_rework (env : Env) (term body : List Char) (site : Site)
    (topics : List Topic) (fs : FS) : HandlerResult :=
  match find_topic term topics with
  | none =>
    ⟨"Kein passendes Thema gefunden fuer: \x27".data ++ term ++ "\x27".data, fs, none⟩
  | some topic =>
    if !fs.hasArtikel topic.slug then ⟨notYetReplyText topic term, fs, none⟩
    else
      let feedback :=
        if body.isEmpty then "Bitte ueberarbeite und verbessere den Artikel.".data
        else body
      let notes := env.research topic
      let res := qualityLoop env topic notes feedback 1
      let img := generate_image env topic fs
      let fs2 := render_article topic res.data img.1 site topics img.2
      ⟨"Artikel ueberarbeitet!\n\nTitel: ".data ++ topic.title ++
         "\nQualitaet: ".data ++ res.score.repr.data ++ "/10\nURL: ".data ++
         urlFor site topic ++
         "\n\nAenderungen sind live nach dem GitHub Pages Deploy (ca. 1-2 Minuten).".data,
       fs2, some feedback⟩

/-- The `done` counter of `handle_topic_list` (340-360): catalog entries
whose slug has an artifact (`total` is the catalog length). -/
def topicListDone (topics : List Topic) (fs : FS) : Nat :=
  (topics.filter (fun t => fs.hasArtikel t.slug)).length

/-- Python runtime error raised by `handle_status`. -/
inductive PyError where
  | zeroDivision
deriving DecidableEq, Repr

/-- The numbers `handle_status` reports. -/
structure StatusReport where
  done : Nat
  total : Nat
  percent : Nat
deriving DecidableEq, Repr

/-- Model of `handle_status` (`email_assistant.py` 363-388): done is the number
of artifact files (a set of stems), `total` the catalog length; the
reply computes `done*100//total`, which raises `ZeroDivisionError` on
an empty catalog.  The category breakdown and string formatting carry
no claim content and are omitted. -/
def handle_status (topics : List Topic) (fs : FS) : Except PyError StatusReport :=
  let existing := (publishedSlugs fs).dedup
  let total := topics.length
  let done := existing.length
  if total == 0 then .error .zeroDivision
  else .ok ⟨done, total, done * 100 / total⟩

/-- A concrete site for witnesses. -/
def site0 : Site := ⟨"https://nichtagentur.github.io/tennis-technique-blog".data⟩

/-- Empty artifact tree. -/
def fs0 : FS := FS.emptyTree

/-- Artifact tree already holding `topic0`. -/
def fsPub0 : FS :=
  ⟨[(topic0.slug, ⟨topic0.slug, topic0.title, "alt".data, none⟩)], []⟩

/-- C3: a `GenerateNew` command on an already-published topic leaves the
artifact tree unchanged, never invokes the pipeline, and replies with
the existing location plus a rework hint. -/
theorem generateNew_already_published (env : Env) (term : List Char)
    (site : Site) (topics : List Topic) (fs : FS) (t : Topic)
    (hfind : find_topic term topics = some t)
    (hpub : fs.hasArtikel t.slug = true) :
    handle_new_article env term site topics fs = ⟨existsReplyText site t, fs, none⟩ ∧
    urlFor site t <:+: existsReplyText site t ∧
    "ueberarbeite".data <:+: existsReplyText site t := by
  refine ⟨?_, ?_, ?_⟩
  · simp [handle_new_article, hfind, hpub]
  · exact ⟨"Artikel existiert bereits: ".data ++ t.title ++ "\nURL: ".data,
      "\n\nSende \x27ueberarbeite ".data ++ t.title ++
        "\x27 um ihn zu ueberarbeiten.".data,
      by simp [existsReplyText, List.append_assoc]⟩
  · refine ⟨"Artikel existiert bereits: ".data ++ t.title ++ "\nURL: ".data ++
        urlFor site t ++ "\n\nSende \x27".data,
      " ".data ++ t.title ++ "\x27 um ihn zu ueberarbeiten.".data, ?_⟩
    have hsplit : "\n\nSende \x27ueberarbeite ".data =
        "\n\nSende \x27".data ++ "ueberarbeite".data ++ " ".data := by decide
    simp [existsReplyText, hsplit, List.append_assoc]

/-- Witness for C3: catalog `[topic0]`, artifact already present. -/
theorem generateNew_already_published_witness :
    handle_new_article env58 "topspin".data site0 [topic0] fsPub0 =
      ⟨existsReplyText site0 topic0, fsPub0, none⟩ ∧
    urlFor site0 topic0 <:+: existsReplyText site0 topic0 ∧
    "ueberarbeite".data <:+: existsReplyText site0 topic0 :=
  generateNew_already_published env58 "topspin".data site0 [topic0] fsPub0 topic0
    (by decide) (by decide)

/-- C6: any image-generation failure (missing credential, raised
exception, empty response) degrades to `none`, and the `GenerateNew`
pipeline still renders the artifact, whose `image` field is `none`. -/
theorem image_failure_renders_without_image (env : Env) (term : List Char)
    (site : Site) (topics : List Topic) (fs : FS) (t : Topic)
    (hfind : find_topic term topics = some t)
    (hnew : fs.hasArtikel t.slug = false)
    (hfail : env.geminiKey = false ∨ (∃ e, env.imageAPI t = .error e) ∨
             env.imageAPI t = .ok none) :
    generate_image env t fs = (none, fs) ∧
    (handle_new_article env term site topics fs).fs.getArtikel t.slug =
      some ⟨t.slug, t.title, (qualityLoop env t (env.research t) [] 1).data.content,
            none⟩ := by
  have himg : generate_image env t fs = (none, fs) := by
    rcases hfail with h | ⟨e, h⟩ | h <;> simp [generate_image, h]
  refine ⟨himg, ?_⟩
  simp only [handle_new_article, hfind, hnew, Bool.false_eq_true, if_false, himg]
  simp [render_article, FS.getArtikel, List.find?]

/-- Witness for C6: `env58` has no Gemini credential. -/
theorem image_failure_renders_without_image_witness :
    generate_image env58 topic0 fs0 = (none, fs0) ∧
    (handle_new_article env58 "topspin".data site0 [topic0] fs0).fs.getArtikel
        topic0.slug =
      some ⟨topic0.slug, topic0.title,
            (qualityLoop env58 topic0 (env58.research topic0) [] 1).data.content,
            none⟩ :=
  image_failure_renders_without_image env58 "topspin".data site0 [topic0] fs0 topic0
    (by decide) (by decide) (Or.inl rfl)

/-- C7: a `Rework` command on a resolved but never-published topic never
invokes the pipeline and replies with a generate-first hint; on a
published topic the pipeline is seeded with the message body, or the
default prompt when the body is empty. -/
theorem rework_seed_and_refusal (env : Env) (term body : List Char)
    (site : Site) (topics : List Topic) (fs : FS) (t : Topic)
    (hfind : find_topic term topics = some t) :
    (fs.hasArtikel t.slug = false →
       handle_rework env term body site topics fs = ⟨notYetReplyText t term, fs, none⟩ ∧
       "existiert noch nicht".data <:+: notYetReplyText t term ∧
       "neuer artikel ueber ".data <:+: notYetReplyText t term) ∧
    (fs.hasArtikel t.slug = true →
       (handle_rework env term body site topics fs).pipelineSeed =
         some (if body.isEmpty
               then "Bitte ueberarbeite und verbessere den Artikel.".data
               else body)) := by
  constructor
  · intro hno
    refine ⟨by simp [handle_rework, hfind, hno], ?_, ?_⟩
    · refine ⟨"Artikel \x27".data ++ t.title ++ "\x27 ".data,
        ".\nSende \x27neuer artikel ueber ".data ++ term ++
          "\x27 um ihn zu erstellen.".data, ?_⟩
      have hsplit : "\x27 existiert noch nicht.\nSende \x27neuer artikel ueber ".data =
          "\x27 ".data ++ "existiert noch nicht".data ++
            ".\nSende \x27neuer artikel ueber ".data := by decide
      simp [notYetReplyText, hsplit, List.append_assoc]
    · refine ⟨"Artikel \x27".data ++ t.title ++
          "\x27 existiert noch nicht.\nSende \x27".data,
        term ++ "\x27 um ihn zu erstellen.".data, ?_⟩
      have hsplit : "\x27 existiert noch nicht.\nSende \x27neuer artikel ueber ".data =
          "\x27 existiert noch nicht.\nSende \x27".data ++
            "neuer artikel ueber ".data := by decide
      simp [notYetReplyText, hsplit, List.append_assoc]
  · intro hyes
    simp [handle_rework, hfind, hyes]

/-- Witness for C7, both branches: unpublished then published tree. -/
theorem rework_seed_and_refusal_witness :
    (handle_rework env58 "topspin".data "Mehr Bilder".data site0 [topic0] fs0 =
       ⟨notYetReplyText topic0 "topspin".data, fs0, none⟩ ∧
     "existiert noch nicht".data <:+: notYetReplyText topic0 "topspin".data ∧
     "neuer artikel ueber ".data <:+: notYetReplyText topic0 "topspin".data) ∧
    (handle_rework env58 "topspin".data [] site0 [topic0] fsPub0).pipelineSeed =
      some "Bitte ueberarbeite und verbessere den Artikel.".data :=
  ⟨(rework_seed_and_refusal env58 "topspin".data "Mehr Bilder".data site0 [topic0]
      fs0 topic0 (by decide)).1 (by decide),
   by
    have := (rework_seed_and_refusal env58 "topspin".data [] site0 [topic0]
      fsPub0 topic0 (by decide)).2 (by decide)
    simpa using this⟩

/-- C10: `handle_status` raises `ZeroDivisionError` exactly on an empty
catalog (the `done*100//total` expression is unguarded); on any
non-empty catalog it reports its numbers without error. -/
theorem handle_status_zero_division :
    (∀ fs : FS, handle_status [] fs = .error .zeroDivision) ∧
    (∀ (topics : List Topic) (fs : FS), topics ≠ [] →
       handle_status topics fs =
         .ok ⟨((publishedSlugs fs).dedup).length, topics.length,
              ((publishedSlugs fs).dedup).length * 100 / topics.length⟩) := by
  constructor
  · intro fs
    rfl
  · intro topics fs h
    have : (topics.length == 0) = false := by
      simp [List.length_eq_zero, h]
    simp [handle_status, this]

/-- Witness for C10: empty and singleton catalogs. -/
theorem handle_status_zero_division_witness :
    handle_status [] fsPub0 = .error .zeroDivision ∧
    handle_status [topic0] fsPub0 = .ok ⟨1, 1, 100⟩ := by
  refine ⟨handle_status_zero_division.1 fsPub0, ?_⟩
  have := handle_status_zero_division.2 [topic0] fsPub0 (by decide)
  simpa using this

/-! ### Cycle controller: per-message error containment (`poll_once`) -/

/-- A parsed inbound mail (`parse_email`'s result dict; `none` models a
failed fetch, skipped with `continue`). -/
structure Msg where
  fromAddr : List Char
  subject : List Char
  body : List Char
  messageId : List Char
deriving DecidableEq, Repr

/-- The allow-listed sender address (`email_assistant.py` line 50). -/
def ALLOWED_SENDER : List Char := "r.leb@cybertime.at".data

/-- The error reply built at the per-message boundary (line 487); the
`traceback.format_exc()` dump is modelled as the raised error's
detail text. -/
def errorReplyText (detail : List Char) : List Char :=
  "Fehler bei der Verarbeitung:\n\n".data ++ detail

/-- What happened to one inbound message during a poll cycle. -/
inductive Outcome where
  | parseFailed
  | ignoredSender (sender : List Char)
  | replied (reply : List Char)
  | errorReplied (detail : List Char)
  | errorDropped (detail : List Char)
deriving DecidableEq, Repr

/-- How a Python call inside message processing can fail.  `exc` is an
ordinary `Exception` (handler bugs, `raise_for_status`, SMTP errors):
caught by the `except Exception` boundaries.  `sysExit` is the
`SystemExit` raised by `sys.exit(1)` in `call_claude` when
`CLAUDE_API_KEY_1` is unset (`generate.py` 35-38): `SystemExit`
subclasses `BaseException`, not `Exception`, so it escapes the
`except Exception` handlers at `email_assistant.py` 486 and 630 and
terminates the process. -/
inductive PyFailure where
  | exc (detail : List Char)
  | sysExit (code : Nat)
deriving DecidableEq, Repr

/-- The per-message boundary of `poll_once` (465-497): skip unparsable
mails, filter to the allowed sender, process and reply inside `try`,
convert a raised `Exception` into an error reply to the requester,
swallow a failure of that error-reply send (`except Exception: pass`) —
but let a `SystemExit` escape the boundary (it is not an `Exception`),
modelled as the `Except.error` of the result.  `P` abstracts
`process_email` (whose handlers and capability calls may raise either
kind, `sys.exit` included), `S` abstracts `send_reply` (SMTP raises
only ordinary exceptions). -/
def handleMessage (P : Msg → Except PyFailure (List Char))
    (S : List Char → List Char → List Char → List Char → Except (List Char) Unit)
    (m : Option Msg) : Except Nat Outcome :=
  match m with
  | none => .ok .parseFailed
  | some md =>
    if md.fromAddr == ALLOWED_SENDER then
      match P md with
      | .error (.sysExit c) => .error c
      | .error (.exc e) =>
        match S md.fromAddr md.subject (errorReplyText e) md.messageId with
        | .ok _ => .ok (.errorReplied e)
        | .error _ => .ok (.errorDropped e)
      | .ok reply =>
        match S md.fromAddr md.subject reply md.messageId with
        | .ok _ => .ok (.replied reply)
        | .error e =>
          match S md.fromAddr md.subject (errorReplyText e) md.messageId with
          | .ok _ => .ok (.errorReplied e)
          | .error _ => .ok (.errorDropped e)
    else .ok (.ignoredSender md.fromAddr)

/-- The `for uid in unseen` loop of `poll_once` (465-497), message by
message: an escaping `SystemExit` (`Except.error`) aborts the whole
cycle — and, through `main`'s equally `Exception`-only handlers, the
controller — leaving the remaining messages unprocessed. -/
def poll_once (P : Msg → Except PyFailure (List Char))
    (S : List Char → List Char → List Char → List Char → Except (List Char) Unit) :
    List (Option Msg) → Except Nat (List Outcome)
  | [] => .ok []
  | m :: rest =>
    match handleMessage P S m with
    | .error c => .error c
    | .ok o =>
      match poll_once P S rest with
      | .error c => .error c
      | .ok os => .ok (o :: os)

/-- A message from the allowed sender used in witnesses. -/
def msg0 : Msg := ⟨ALLOWED_SENDER, "status".data, [], "<id-1>".data⟩

/-- A second allowed message, left unprocessed in the counterexample. -/
def msg1 : Msg := ⟨ALLOWED_SENDER, "themen".data, [], "<id-2>".data⟩

/-- C4 counterexample: `sys.exit(1)` from `call_claude` (missing
`CLAUDE_API_KEY_1`, `generate.py` 35-38) raises `SystemExit`, which is
not an `Exception`: processing the first message of a two-message batch
terminates the poll cycle and the controller with no error reply, and
the second message is never processed — refuting the claim that every
per-message exception is caught and the batch continues. -/
theorem poll_systemexit_kills :
    poll_once (fun _ => .error (.sysExit 1)) (fun _ _ _ _ => .ok ())
        [some msg0, some msg1] = .error 1 ∧
    ∀ os : List Outcome,
      poll_once (fun _ => .error (.sysExit 1)) (fun _ _ _ _ => .ok ())
        [some msg0, some msg1] ≠ .ok os := by
  refine ⟨rfl, fun os h => ?_⟩
  rw [show poll_once (fun _ => .error (.sysExit 1)) (fun _ _ _ _ => .ok ())
        [some msg0, some msg1] = .error 1 from rfl] at h
  exact Except.noConfusion h

/-- C4 amended: the poll cycle processes messages one step at a time; a
cycle that survives assigns every message of the batch its own outcome;
an ordinary `Exception` raised while processing an allowed message
becomes an error reply carrying the detail dump (dropped only if that
send also raises) and the rest of the batch continues; but a
`SystemExit` raised for an allowed message (the missing-credential
`sys.exit(1)` path) aborts the cycle and the controller, dropping the
remaining messages. -/
theorem poll_catchable_containment :
    (∀ (P : Msg → Except PyFailure (List Char))
       (S : List Char → List Char → List Char → List Char → Except (List Char) Unit)
       (m : Option Msg) (rest : List (Option Msg)),
       poll_once P S (m :: rest) =
         match handleMessage P S m with
         | .error c => .error c
         | .ok o => (poll_once P S rest).map (fun os => o :: os)) ∧
    (∀ (P : Msg → Except PyFailure (List Char))
       (S : List Char → List Char → List Char → List Char → Except (List Char) Unit)
       (msgs : List (Option Msg)) (os : List Outcome),
       poll_once P S msgs = .ok os → os.length = msgs.length) ∧
    (∀ (P : Msg → Except PyFailure (List Char))
       (S : List Char → List Char → List Char → List Char → Except (List Char) Unit)
       (m : Msg) (e : List Char),
       m.fromAddr = ALLOWED_SENDER → P m = .error (.exc e) →
       handleMessage P S (some m) = .ok (.errorReplied e) ∨
       handleMessage P S (some m) = .ok (.errorDropped e)) ∧
    (∀ detail : List Char, detail <:+: errorReplyText detail) ∧
    (∀ (P : Msg → Except PyFailure (List Char))
       (S : List Char → List Char → List Char → List Char → Except (List Char) Unit)
       (m : Msg) (c : Nat) (rest : List (Option Msg)),
       m.fromAddr = ALLOWED_SENDER → P m = .error (.sysExit c) →
       poll_once P S (some m :: rest) = .error c) := by
  refine ⟨fun P S m rest => ?_, fun P S msgs => ?_, fun P S m e hm he => ?_,
          fun detail => ?_, fun P S m c rest hm he => ?_⟩
  · cases hm : handleMessage P S m with
    | error c => simp [poll_once, hm]
    | ok o =>
      cases hr : poll_once P S rest with
      | error c => simp [poll_once, hm, hr, Except.map]
      | ok os => simp [poll_once, hm, hr, Except.map]
  · induction msgs with
    | nil =>
      intro os h
      rw [poll_once] at h
      cases h
      rfl
    | cons m rest ih =>
      intro os h
      rw [poll_once] at h
      cases hm : handleMessage P S m with
      | error c => rw [hm] at h; cases h
      | ok o =>
        rw [hm] at h
        cases hr : poll_once P S rest with
        | error c => rw [hr] at h; cases h
        | ok os2 =>
          rw [hr] at h
          cases h
          simp [ih os2 hr]
  · cases hS : S m.fromAddr m.subject (errorReplyText e) m.messageId with
    | ok u => left; rw [hm] at hS; simp [handleMessage, hm, he, hS]
    | error f => right; rw [hm] at hS; simp [handleMessage, hm, he, hS]
  · exact ⟨"Fehler bei der Verarbeitung:\n\n".data, [], by simp [errorReplyText]⟩
  · rw [poll_once]
    have hmsg : handleMessage P S (some m) = .error c := by
      simp [handleMessage, hm, he]
    rw [hmsg]

/-- Witness for `poll_catchable_containment`: a raised `Exception`
becomes an error reply when the send succeeds, and a raised
`SystemExit` on an allowed message aborts the cycle. -/
theorem poll_catchable_containment_witness :
    (handleMessage (fun _ => .error (.exc "boom".data)) (fun _ _ _ _ => .ok ())
        (some msg0) = .ok (.errorReplied "boom".data) ∨
     handleMessage (fun _ => .error (.exc "boom".data)) (fun _ _ _ _ => .ok ())
        (some msg0) = .ok (.errorDropped "boom".data)) ∧
    poll_once (fun _ => .error (.sysExit 1)) (fun _ _ _ _ => .ok ())
        [some msg0, some msg1] = .error 1 :=
  ⟨poll_catchable_containment.2.2.1 (fun _ => .error (.exc "boom".data))
     (fun _ _ _ _ => .ok ()) msg0 "boom".data rfl rfl,
   poll_catchable_containment.2.2.2.2 (fun _ => .error (.sysExit 1))
     (fun _ _ _ _ => .ok ()) msg0 1 [some msg1] rfl rfl⟩

/-! ### Reachable states and the published-subset invariant -/

/-- Model of `auto_generate_next` (`email_assistant.py` 506-568):
generate the
first catalog topic without an artifact (nothing to do when all are
published): research, `range(2)` quality loop with empty feedback,
image, render.  Failures are logged only; the notification mail does
not touch the tree. -/
def auto_generate_next (env : Env) (site : Site) (topics : List Topic)
    (fs : FS) : FS :=
  match topics.find? (fun t => !fs.hasArtikel t.slug) with
  | none => fs
  | some topic =>
    let res := qualityLoop env topic (env.research topic) [] 1
    let img := generate_image env topic fs
    render_article topic res.data img.1 site topics img.2

/-- States `(catalog, tree)` reachable by the controller.  `load_config`
rereads `topics.json` at the start of every cycle, so between cycles
the catalog may change while the artifact tree persists (`reload`);
the artifact tree itself changes only through the three pipeline entry
points. -/
inductive Reachable : List Topic → FS → Prop where
  | init (cat : List Topic) : Reachable cat FS.emptyTree
  | reload (cat' : List Topic) {cat : List Topic} {fs : FS} :
      Reachable cat fs → Reachable cat' fs
  | newArticle (env : Env) (term : List Char) (site : Site)
      {cat : List Topic} {fs : FS} :
      Reachable cat fs → Reachable cat ((handle_new_article env term site cat fs).fs)
  | rework (env : Env) (term body : List Char) (site : Site)
      {cat : List Topic} {fs : FS} :
      Reachable cat fs → Reachable cat ((handle_rework env term body site cat fs).fs)
  | auto (env : Env) (site : Site) {cat : List Topic} {fs : FS} :
      Reachable cat fs → Reachable cat (auto_generate_next env site cat fs)

/-- Reachability when the catalog file never changes. -/
inductive ReachableFixed (cat : List Topic) : FS → Prop where
  | init : ReachableFixed cat FS.emptyTree
  | newArticle (env : Env) (term : List Char) (site : Site) {fs : FS} :
      ReachableFixed cat fs →
      ReachableFixed cat ((handle_new_article env term site cat fs).fs)
  | rework (env : Env) (term body : List Char) (site : Site) {fs : FS} :
      ReachableFixed cat fs →
      ReachableFixed cat ((handle_rework env term body site cat fs).fs)
  | auto (env : Env) (site : Site) {fs : FS} :
      ReachableFixed cat fs → ReachableFixed cat (auto_generate_next env site cat fs)

theorem find_topic_mem {term : List Char} {cat : List Topic} {t : Topic}
    (h : find_topic term cat = some t) : t ∈ cat := by
  simp only [find_topic, findTopicGo_eq] at h
  split at h
  · split at h
    · exact absurd h (by simp)
    · exact List.mem_of_find?_eq_some h
  · exact absurd h (by simp)

theorem generate_image_artikel (env : Env) (t : Topic) (fs : FS) :
    ((generate_image env t fs).2).artikel = fs.artikel := by
  rw [generate_image]
  split
  · rfl
  · split <;> rfl

theorem publishedSlugs_render {topic : Topic} {data : ArticleData}
    {img : Option (List Char)} {site : Site} {cat : List Topic} {fs : FS}
    {s : List Char}
    (hs : s ∈ publishedSlugs (render_article topic data img site cat fs)) :
    s = topic.slug ∨ s ∈ publishedSlugs fs := by
  simp only [publishedSlugs, render_article, List.map_cons, List.mem_cons] at hs
  rcases hs with h | h
  · exact Or.inl h
  · right
    rcases List.mem_map.mp h with ⟨p, hp, rfl⟩
    exact List.mem_map_of_mem _ (List.mem_of_mem_filter hp)

theorem handle_new_article_slugs (env : Env) (term : List Char) (site : Site)
    (cat : List Topic) (fs : FS) (s : List Char)
    (hs : s ∈ publishedSlugs (handle_new_article env term site cat fs).fs) :
    s ∈ publishedSlugs fs ∨ ∃ t ∈ cat, s = t.slug := by
  rw [handle_new_article] at hs
  cases hf : find_topic term cat with
  | none => rw [hf] at hs; exact Or.inl hs
  | some t =>
    rw [hf] at hs
    by_cases hp : fs.hasArtikel t.slug
    · simp only [hp, if_true] at hs
      exact Or.inl hs
    · simp only [hp, Bool.false_eq_true, if_false] at hs
      rcases publishedSlugs_render hs with h | h
      · exact Or.inr ⟨t, find_topic_mem hf, h⟩
      · left
        simp only [publishedSlugs] at h ⊢
        rw [generate_image_artikel] at h
        exact h

theorem handle_rework_slugs (env : Env) (term body : List Char) (site : Site)
    (cat : List Topic) (fs : FS) (s : List Char)
    (hs : s ∈ publishedSlugs (handle_rework env term body site cat fs).fs) :
    s ∈ publishedSlugs fs ∨ ∃ t ∈ cat, s = t.slug := by
  rw [handle_rework] at hs
  cases hf : find_topic term cat with
  | none => rw [hf] at hs; exact Or.inl hs
  | some t =>
    rw [hf] at hs
    by_cases hp : fs.hasArtikel t.slug
    · simp only [hp, Bool.not_true, Bool.false_eq_true, if_false] at hs
      rcases publishedSlugs_render hs with h | h
      · exact Or.inr ⟨t, find_topic_mem hf, h⟩
      · left
        simp only [publishedSlugs] at h ⊢
        rw [generate_image_artikel] at h
        exact h
    · simp only [Bool.eq_false_iff.mpr hp, Bool.not_false, if_true] at hs
      exact Or.inl hs

theorem auto_generate_next_slugs (env : Env) (site : Site)
    (cat : List Topic) (fs : FS) (s : List Char)
    (hs : s ∈ publishedSlugs (auto_generate_next env site cat fs)) :
    s ∈ publishedSlugs fs ∨ ∃ t ∈ cat, s = t.slug := by
  rw [auto_generate_next] at hs
  cases hf : cat.find? (fun t => !fs.hasArtikel t.slug) with
  | none => rw [hf] at hs; exact Or.inl hs
  | some t =>
    rw [hf] at hs
    rcases publishedSlugs_render hs with h | h
    · exact Or.inr ⟨t, List.mem_of_find?_eq_some hf, h⟩
    · left
      simp only [publishedSlugs] at h ⊢
      rw [generate_image_artikel] at h
      exact h

theorem reachableFixed_subset {cat : List Topic} {fs : FS}
    (h : ReachableFixed cat fs) :
    ∀ s ∈ publishedSlugs fs, s ∈ cat.map Topic.slug := by
  induction h with
  | init => intro s hs; simp [publishedSlugs, FS.emptyTree] at hs
  | newArticle env term site _ ih =>
    intro s hs
    rcases handle_new_article_slugs env term site _ _ s hs with h1 | ⟨t, ht, rfl⟩
    · exact ih s h1
    · exact List.mem_map_of_mem _ ht
  | rework env term body site _ ih =>
    intro s hs
    rcases handle_rework_slugs env term body site _ _ s hs with h1 | ⟨t, ht, rfl⟩
    · exact ih s h1
    · exact List.mem_map_of_mem _ ht
  | auto env site _ ih =>
    intro s hs
    rcases auto_generate_next_slugs env site _ _ s hs with h1 | ⟨t, ht, rfl⟩
    · exact ih s h1
    · exact List.mem_map_of_mem _ ht

/-- C5 amended: under a fixed catalog every state reachable from an
empty artifact tree keeps the published slugs inside the catalog's
slugs and keeps `handle_status`'s completion count within the topic
count, and `handle_topic_list`'s count never exceeds the topic count
for any tree whatsoever.  (When the catalog file changes between
cycles the subset invariant can fail — see the counterexample.) -/
theorem published_subset_fixed_catalog :
    (∀ (cat : List Topic) (fs : FS), ReachableFixed cat fs →
       ∀ s ∈ publishedSlugs fs, s ∈ cat.map Topic.slug) ∧
    (∀ (cat : List Topic) (fs : FS), ReachableFixed cat fs →
       ∀ r, handle_status cat fs = .ok r → r.done ≤ r.total) ∧
    (∀ (cat : List Topic) (fs : FS), topicListDone cat fs ≤ cat.length) := by
  have hsub : ∀ (cat : List Topic) (fs : FS), ReachableFixed cat fs →
      ∀ s ∈ publishedSlugs fs, s ∈ cat.map Topic.slug :=
    fun _ _ h => reachableFixed_subset h
  refine ⟨hsub, fun cat fs h r hr => ?_, fun cat fs => ?_⟩
  · rw [handle_status] at hr
    by_cases hz : (cat.length == 0) = true
    · rw [if_pos hz] at hr; cases hr
    · rw [if_neg hz] at hr
      cases hr
      have hnd : (publishedSlugs fs).dedup.Nodup := List.nodup_dedup _
      have hss : (publishedSlugs fs).dedup ⊆ cat.map Topic.slug :=
        fun s hs => hsub cat fs h s (List.mem_dedup.mp hs)
      calc (publishedSlugs fs).dedup.length
          ≤ (cat.map Topic.slug).length := (hnd.subperm hss).length_le
        _ = cat.length := List.length_map _ _
  · exact le_trans (List.length_filter_le _ _) le_rfl

/-- One auto-generated article over the singleton catalog. -/
def fsOne : FS := auto_generate_next env58 site0 [topic0] fs0

/-- Witness for `published_subset_fixed_catalog` on concrete reachable
states. -/
theorem published_subset_fixed_catalog_witness :
    (∀ s ∈ publishedSlugs fsOne, s ∈ ([topic0].map Topic.slug)) ∧
    (1 : Nat) ≤ (1 : Nat) ∧ topicListDone [topic0] fsPub0 ≤ 1 :=
  ⟨published_subset_fixed_catalog.1 [topic0] fsOne
     (ReachableFixed.auto env58 site0 ReachableFixed.init),
   published_subset_fixed_catalog.2.1 [topic0] fsOne
     (ReachableFixed.auto env58 site0 ReachableFixed.init)
     ⟨1, 1, 100⟩ (by rfl),
   published_subset_fixed_catalog.2.2 [topic0] fsPub0⟩

/-- Catalog of two topics used by the counterexample. -/
def topicA : Topic :=
  ⟨"aufschlag-kick".data, "Aufschlag Kick".data, "Aufschlag".data,
   "Profi".data, ["kick".data]⟩

def topicB : Topic :=
  ⟨"rueckhand-slice".data, "Rueckhand Slice".data, "Grundschlaege".data,
   "Mittelstufe".data, ["slice".data]⟩

def catAB : List Topic := [topicA, topicB]

/-- The later catalog: both published topics removed, one new topic. -/
def catC : List Topic := [topic0]

/-- Tree after two autonomous generations over `catAB`. -/
def fsTwo : FS :=
  auto_generate_next env58 site0 catAB (auto_generate_next env58 site0 catAB fs0)

/-- C5 counterexample: after generating both topics of a two-topic
catalog, a catalog reload that removed them reaches a state whose
published slugs are not a subset of the catalog's slugs, and where
`handle_status` reports completion 2 of 1 (200%). -/
theorem published_subset_cex :
    Reachable catC fsTwo ∧
    ¬ (∀ s ∈ publishedSlugs fsTwo, s ∈ catC.map Topic.slug) ∧
    handle_status catC fsTwo = .ok ⟨2, 1, 200⟩ := by
  refine ⟨Reachable.reload catC
    (Reachable.auto env58 site0 (Reachable.auto env58 site0 (Reachable.init catAB))),
    ?_, ?_⟩
  · decide
  · rfl

end TennisLab
